import Mathlib

/-!
Verification of the gersemi VS Code extension (`src/extension.ts`).

The extension is glue code: `runGersemi` spawns the external `gersemi`
formatter, pipes the document text to its stdin, accumulates stdout and
stderr from `data` events, and on the `close` event resolves the promise
with the accumulated stdout (exit code 0) or with `null` after showing an
error notification (any other exit code, including the `null` code of a
signal-terminated process).  A `DocumentFormattingEditProvider` and a
manual command wrap the bridge.

The shallow embedding models the child process by its observable behavior:
the list of `data` events it fires on stdout and stderr, and the code
delivered to the `close` handler (`Option Int`, `none` standing for the
JavaScript `null`).  The ambient VS Code workspace state is a `Workspace`
record: the list of open workspace folders (by their filesystem paths) and
the set of existing files consulted by `fs.existsSync`.  Side effects of
one bridge invocation (the spawn performed, the notifications shown) are
returned explicitly in a `BridgeOutcome` record, and the promise is
modelled by an explicit settle type with a `rejected` constructor that the
code can in principle reach but never does.
-/

/-- A `data` event fired by the child process on one of its output streams.
Chunk buffers are modelled by the strings `d.toString()` produces. -/
inductive ChildEvent where
  | stdoutData : String → ChildEvent
  | stderrData : String → ChildEvent
deriving DecidableEq, Repr

/-- Observable behavior of one spawned child process: the stream events it
fires, followed by one `close` event carrying `code : number | null`
(`none` models the `null` delivered when the process was terminated by a
signal or failed to spawn). -/
structure ChildBehavior where
  events : List ChildEvent
  closeCode : Option Int
deriving DecidableEq, Repr

/-- Ambient VS Code workspace state read by `runGersemi`:
`vscode.workspace.workspaceFolders` (each folder by its `uri.fsPath`) and
the set of paths for which `fs.existsSync` answers `true`. -/
structure Workspace where
  workspaceFolders : List String
  existingFiles : List String
deriving DecidableEq, Repr

/-- Model of `fs.existsSync`. -/
def existsSync (ws : Workspace) (p : String) : Bool :=
  ws.existingFiles.contains p

/-- Model of `vscode.Uri.joinPath(folder.uri, name).fsPath`. -/
def joinPath (base name : String) : String :=
  base ++ "/" ++ name

/-- Config discovery in `runGersemi`: `workspaceFolders?.[0]`, then
`fs.existsSync` on the joined `.gersemirc` path. -/
def configPathOf (ws : Workspace) : Option String :=
  match ws.workspaceFolders.head? with
  | some folder =>
      let possiblePath := joinPath folder ".gersemirc"
      if existsSync ws possiblePath then some possiblePath else none
  | none => none

/-- CLI argument construction in `runGersemi`: `const args = ['-']` then
`args.push('--config', configPath)` when a config path was found. -/
def buildArgs (configPath : Option String) : List String :=
  let args := ["-"]
  match configPath with
  | some p => args ++ ["--config", p]
  | none => args

/-- Record of the one `spawn` call performed by `runGersemi`, together with
what was written to the child's stdin and whether it was ended. -/
structure SpawnRecord where
  command : String
  args : List String
  stdinWrites : List String
  stdinEnded : Bool
deriving DecidableEq, Repr

/-- The two accumulator variables `let stdout = ''; let stderr = ''` of
`runGersemi`. -/
structure AccumState where
  stdout : String
  stderr : String
deriving DecidableEq, Repr

/-- The two `data` handlers: `stdout += d.toString()` and
`stderr += d.toString()`. -/
def handleData (s : AccumState) : ChildEvent → AccumState
  | ChildEvent.stdoutData d => { s with stdout := s.stdout ++ d }
  | ChildEvent.stderrData d => { s with stderr := s.stderr ++ d }

/-- How the promise returned by `runGersemi` settles.  The executor is
`new Promise((resolve) => ...)`; `rejected` is representable so that never
rejecting is a statement, not a typing accident. -/
inductive PromiseSettle where
  | resolved : Option String → PromiseSettle
  | rejected : PromiseSettle
deriving DecidableEq, Repr

/-- The `close` handler of `runGersemi`: on `code === 0` resolve with the
accumulated stdout; otherwise show one error message containing the
accumulated stderr and resolve with `null`.  Returns the settle action and
the list of notifications shown. -/
def onClose (stdout stderr : String) (code : Option Int) :
    PromiseSettle × List String :=
  if code = some 0 then
    (PromiseSettle.resolved (some stdout), [])
  else
    (PromiseSettle.resolved none, ["gersemi failed: " ++ stderr])

/-- Everything observable about one `runGersemi` invocation: the spawn it
performed, how its promise settled, and the notifications it showed. -/
structure BridgeOutcome where
  spawned : SpawnRecord
  settle : PromiseSettle
  notifications : List String
deriving DecidableEq, Repr

/-- `runGersemi(_filename, input)` from `src/extension.ts`, evaluated
against a workspace state `ws` and a child-process behavior `beh`:
discover the config path, build the CLI arguments, spawn `gersemi`,
accumulate the stream events with the two `data` handlers, and settle the
promise with the `close` handler.  `_filename` is a parameter of the
source function and is unused there. -/
def runGersemi (ws : Workspace) (beh : ChildBehavior)
    (_filename : String) (input : String) : BridgeOutcome :=
  let args := buildArgs (configPathOf ws)
  let acc := beh.events.foldl handleData { stdout := "", stderr := "" }
  let settled := onClose acc.stdout acc.stderr beh.closeCode
  { spawned :=
      { command := "gersemi", args := args
        stdinWrites := [input], stdinEnded := true }
    settle := settled.1
    notifications := settled.2 }

/-- The value the awaited promise of `runGersemi` delivers to a caller,
when it settles by resolving. -/
def BridgeOutcome.result (o : BridgeOutcome) : Option String :=
  match o.settle with
  | PromiseSettle.resolved v => v
  | PromiseSettle.rejected => none

/-- The stdout text accumulated by the `data` handlers over a whole child
behavior (the value of the `stdout` variable when `close` fires). -/
def stdoutOf (beh : ChildBehavior) : String :=
  (beh.events.foldl handleData { stdout := "", stderr := "" }).stdout

/-- The stderr text accumulated by the `data` handlers over a whole child
behavior (the value of the `stderr` variable when `close` fires). -/
def stderrOf (beh : ChildBehavior) : String :=
  (beh.events.foldl handleData { stdout := "", stderr := "" }).stderr

/-- A `vscode.TextDocument` as used by the extension: its `fileName` and
the text returned by `getText()`. -/
structure TextDocument where
  fileName : String
  text : String
deriving DecidableEq, Repr

/-- A `vscode.TextEdit.replace(range, newText)` over the document,
with the range given by the character offsets that `positionAt` was
applied to. -/
structure TextEdit where
  rangeStart : Nat
  rangeEnd : Nat
  newText : String
deriving DecidableEq, Repr

/-- `GersemiFormatter.provideDocumentFormattingEdits`: read the document
text, run the bridge, and on a non-null result return one full-range
replacement edit (`positionAt(0)` to `positionAt(input.length)`);
on a null result return `[]`. -/
def provideDocumentFormattingEdits (ws : Workspace) (beh : ChildBehavior)
    (document : TextDocument) : List TextEdit :=
  let input := document.text
  let formatted := (runGersemi ws beh document.fileName input).result
  match formatted with
  | none => []
  | some f => [{ rangeStart := 0, rangeEnd := input.length, newText := f }]

/-- A `vscode.TextEditor` as used by the manual command: its document's
`fileName` and current buffer text. -/
structure TextEditor where
  fileName : String
  docText : String
deriving DecidableEq, Repr

/-- `builder.replace` of the range `[a, b)` (character offsets) with `t`,
applied to a buffer `s`. -/
def replaceRange (s : String) (a b : Nat) (t : String) : String :=
  String.mk (s.data.take a ++ t.data ++ s.data.drop b)

/-- Everything observable about one invocation of the
`gersemi.formatDocument` command: whether a formatter process was spawned
(and which), the notifications shown, and the active editor afterwards. -/
structure CommandOutcome where
  spawned : Option SpawnRecord
  notifications : List String
  finalEditor : Option TextEditor
deriving DecidableEq, Repr

/-- The `gersemi.formatDocument` command callback: if there is no active
editor, return immediately; otherwise run the bridge on the editor's
document text and, on a non-null result, replace the full document range
(`positionAt(0)` to `positionAt(getText().length)`) with it. -/
def formatDocumentCommand (ws : Workspace) (beh : ChildBehavior)
    (activeTextEditor : Option TextEditor) : CommandOutcome :=
  match activeTextEditor with
  | none => { spawned := none, notifications := [], finalEditor := none }
  | some editor =>
      let outcome := runGersemi ws beh editor.fileName editor.docText
      match outcome.result with
      | some formatted =>
          { spawned := some outcome.spawned
            notifications := outcome.notifications
            finalEditor := some { editor with
              docText :=
                replaceRange editor.docText 0 editor.docText.length formatted } }
      | none =>
          { spawned := some outcome.spawned
            notifications := outcome.notifications
            finalEditor := some editor }

/-- The argument list as the spec describes it: exactly
`['-', '--config', <path>]` when `.gersemirc` exists directly under the
first workspace folder, and exactly `['-']` otherwise (no folder open, or
no such file).  Stated from the spec's words, to be compared with the list
the source-derived `runGersemi` builds. -/
def specArgs (ws : Workspace) : List String :=
  match ws.workspaceFolders.head? with
  | some folder =>
      if existsSync ws (joinPath folder ".gersemirc") then
        ["-", "--config", joinPath folder ".gersemirc"]
      else ["-"]
  | none => ["-"]

/-- Accumulating the data events of a behavior starting from prior
accumulator contents appends the behavior's stream contents to them. -/
theorem foldl_handleData (es : List ChildEvent) (a b : String) :
    List.foldl handleData { stdout := a, stderr := b } es =
      { stdout := a ++ (List.foldl handleData { stdout := "", stderr := "" } es).stdout
        stderr := b ++ (List.foldl handleData { stdout := "", stderr := "" } es).stderr } := by
  induction es generalizing a b with
  | nil => simp [String.append_empty]
  | cons e es ih =>
      cases e with
      | stdoutData d =>
          simp only [List.foldl_cons, handleData]
          rw [ih, ih ("" ++ d) ""]
          simp [String.append_assoc, String.empty_append]
      | stderrData d =>
          simp only [List.foldl_cons, handleData]
          rw [ih, ih "" ("" ++ d)]
          simp [String.append_assoc, String.empty_append]

/-- Replacing the full range of a buffer yields exactly the new text. -/
theorem replaceRange_full (s t : String) :
    replaceRange s 0 s.length t = t := by
  obtain ⟨sd⟩ := s
  obtain ⟨td⟩ := t
  simp [replaceRange, String.length, List.drop_length]

/-- Claim C1: with a formatter process whose accumulated stdout equals the
input (an echoing stub) and whose close code is zero, the bridge resolves
with exactly that accumulated stdout, i.e. with the input text. -/
theorem runGersemi_echo_roundtrip (ws : Workspace) (beh : ChildBehavior)
    (fn input : String)
    (hout : stdoutOf beh = input) (hcode : beh.closeCode = some 0) :
    (runGersemi ws beh fn input).result = some input := by
  simp [runGersemi, BridgeOutcome.result, onClose, hcode, ← hout, stdoutOf]

/-- Witness for C1 at a concrete echoing behavior. -/
theorem runGersemi_echo_roundtrip_witness :
    stdoutOf { events := [ChildEvent.stdoutData "ab"], closeCode := some 0 } = "ab" ∧
    (runGersemi { workspaceFolders := [], existingFiles := [] }
        { events := [ChildEvent.stdoutData "ab"], closeCode := some 0 }
        "f.cmake" "ab").result = some "ab" :=
  ⟨by decide, runGersemi_echo_roundtrip _ _ _ _ (by decide) rfl⟩

/-- Claim C2: with a process whose close code is not zero, the bridge
resolves with null and shows exactly one error notification, whose text
contains the accumulated stderr verbatim (as a contiguous substring). -/
theorem runGersemi_nonzero_exit (ws : Workspace) (beh : ChildBehavior)
    (fn input : String) (h : beh.closeCode ≠ some 0) :
    (runGersemi ws beh fn input).result = none ∧
    (runGersemi ws beh fn input).notifications =
      ["gersemi failed: " ++ stderrOf beh] ∧
    ∃ m, (runGersemi ws beh fn input).notifications = [m ++ stderrOf beh] := by
  refine ⟨?_, ?_, "gersemi failed: ", ?_⟩ <;>
    simp [runGersemi, BridgeOutcome.result, onClose, h, stderrOf]

/-- Witness for C2 at a concrete non-zero exit. -/
theorem runGersemi_nonzero_exit_witness :
    ((1 : Int) ≠ 0) ∧
    (runGersemi { workspaceFolders := [], existingFiles := [] }
        { events := [ChildEvent.stderrData "boom"], closeCode := some 1 }
        "f.cmake" "x").result = none ∧
    (runGersemi { workspaceFolders := [], existingFiles := [] }
        { events := [ChildEvent.stderrData "boom"], closeCode := some 1 }
        "f.cmake" "x").notifications =
      ["gersemi failed: " ++
        stderrOf { events := [ChildEvent.stderrData "boom"], closeCode := some 1 }] ∧
    ∃ m, (runGersemi { workspaceFolders := [], existingFiles := [] }
        { events := [ChildEvent.stderrData "boom"], closeCode := some 1 }
        "f.cmake" "x").notifications =
      [m ++ stderrOf { events := [ChildEvent.stderrData "boom"], closeCode := some 1 }] :=
  ⟨by decide, runGersemi_nonzero_exit _ _ _ _ (by decide)⟩

/-- Claim C3: the argument list handed to the spawned formatter starts with
the stdin sentinel and is exactly the list the spec describes: with a
`.gersemirc` directly under the first workspace folder it is the sentinel
followed by the config flag and that path, otherwise the sentinel alone. -/
theorem runGersemi_args_spec (ws : Workspace) (beh : ChildBehavior)
    (fn input : String) :
    (runGersemi ws beh fn input).spawned.args.head? = some "-" ∧
    (runGersemi ws beh fn input).spawned.command = "gersemi" ∧
    (runGersemi ws beh fn input).spawned.args = specArgs ws := by
  have hargs : (runGersemi ws beh fn input).spawned.args = specArgs ws := by
    simp only [runGersemi, buildArgs, configPathOf, specArgs]
    cases ws.workspaceFolders.head? with
    | none => rfl
    | some folder =>
        by_cases hc : existsSync ws (joinPath folder ".gersemirc") <;> simp [hc]
  refine ⟨?_, rfl, hargs⟩
  rw [hargs]
  unfold specArgs
  cases ws.workspaceFolders.head? with
  | none => rfl
  | some folder =>
      by_cases hc : existsSync ws (joinPath folder ".gersemirc") <;> simp [hc]

/-- Claim C4: the automatic provider returns exactly one full-range edit
carrying the bridge's result when that result is non-null, and the empty
edit list when it is null. -/
theorem provideDocumentFormattingEdits_spec (ws : Workspace)
    (beh : ChildBehavior) (document : TextDocument) :
    (∀ R, (runGersemi ws beh document.fileName document.text).result = some R →
        provideDocumentFormattingEdits ws beh document =
          [{ rangeStart := 0, rangeEnd := document.text.length, newText := R }]) ∧
    ((runGersemi ws beh document.fileName document.text).result = none →
        provideDocumentFormattingEdits ws beh document = []) := by
  constructor
  · intro R hR
    simp [provideDocumentFormattingEdits, hR]
  · intro hnone
    simp [provideDocumentFormattingEdits, hnone]

/-- Witness for C4: a successful concrete run yields the one full-range
edit, a failing one yields no edits. -/
theorem provideDocumentFormattingEdits_spec_witness :
    provideDocumentFormattingEdits { workspaceFolders := [], existingFiles := [] }
        { events := [ChildEvent.stdoutData "y"], closeCode := some 0 }
        { fileName := "f.cmake", text := "abc" } =
      [{ rangeStart := 0, rangeEnd := 3, newText := "y" }] ∧
    provideDocumentFormattingEdits { workspaceFolders := [], existingFiles := [] }
        { events := [], closeCode := some 1 }
        { fileName := "f.cmake", text := "abc" } = [] :=
  ⟨(provideDocumentFormattingEdits_spec _ _ _).1 "y" (by decide),
   (provideDocumentFormattingEdits_spec _ _ _).2 (by decide)⟩

/-- Claim C5: the promise returned by the bridge always settles by
resolving (to some text or to null); it never rejects, whatever the
process behavior — including a close code of null, the code Node delivers
for a signal-terminated or failed-to-launch process. -/
theorem runGersemi_never_rejects (ws : Workspace) (beh : ChildBehavior)
    (fn input : String) :
    ∃ v, (runGersemi ws beh fn input).settle = PromiseSettle.resolved v := by
  simp only [runGersemi, onClose]
  by_cases h : beh.closeCode = some 0 <;> simp [h]

/-- Claim C6: the manual command with an active editor and a non-null
bridge result replaces the full original range of the buffer with the
result, leaving the buffer equal to the result. -/
theorem formatDocumentCommand_success (ws : Workspace) (beh : ChildBehavior)
    (ed : TextEditor) (R : String)
    (h : (runGersemi ws beh ed.fileName ed.docText).result = some R) :
    (formatDocumentCommand ws beh (some ed)).finalEditor =
      some { ed with docText := replaceRange ed.docText 0 ed.docText.length R } ∧
    (formatDocumentCommand ws beh (some ed)).finalEditor =
      some { ed with docText := R } := by
  constructor <;> simp [formatDocumentCommand, h, replaceRange_full]

/-- Witness for C6 at a concrete editor and echoing behavior. -/
theorem formatDocumentCommand_success_witness :
    (formatDocumentCommand { workspaceFolders := [], existingFiles := [] }
        { events := [ChildEvent.stdoutData "out"], closeCode := some 0 }
        (some { fileName := "f.cmake", docText := "in" })).finalEditor =
      some { fileName := "f.cmake",
             docText := replaceRange "in" 0 ("in" : String).length "out" } ∧
    (formatDocumentCommand { workspaceFolders := [], existingFiles := [] }
        { events := [ChildEvent.stdoutData "out"], closeCode := some 0 }
        (some { fileName := "f.cmake", docText := "in" })).finalEditor =
      some { fileName := "f.cmake", docText := "out" } :=
  formatDocumentCommand_success _ _ _ _ (by decide)

/-- Claim C7: the manual command with no active editor spawns no process,
shows no notification, and performs no edit. -/
theorem formatDocumentCommand_no_editor (ws : Workspace) (beh : ChildBehavior) :
    formatDocumentCommand ws beh none =
      { spawned := none, notifications := [], finalEditor := none } := rfl

/-- Claim C8: the filename parameter has no effect on the bridge — the
spawn performed, the notifications shown, and the resolved value are
identical for any two filenames given the same input and environment. -/
theorem runGersemi_filename_irrelevant (ws : Workspace) (beh : ChildBehavior)
    (input f1 f2 : String) :
    runGersemi ws beh f1 input = runGersemi ws beh f2 input := rfl

/-- Claim C9: the bridge's resolved value is non-null exactly when the
close code is zero; any other code — including the null code of a
signal-terminated process — yields null together with the error
notification. -/
theorem runGersemi_result_iff_zero (ws : Workspace) (beh : ChildBehavior)
    (fn input : String) :
    ((runGersemi ws beh fn input).result.isSome ↔ beh.closeCode = some 0) ∧
    (beh.closeCode ≠ some 0 →
        (runGersemi ws beh fn input).result = none ∧
        (runGersemi ws beh fn input).notifications =
          ["gersemi failed: " ++ stderrOf beh]) := by
  by_cases h : beh.closeCode = some 0 <;>
    simp [runGersemi, BridgeOutcome.result, onClose, h, stderrOf]

/-- Witness for C9 at the null close code of a signal-terminated process. -/
theorem runGersemi_result_iff_zero_witness :
    (runGersemi { workspaceFolders := [], existingFiles := [] }
        { events := [ChildEvent.stderrData "sig"], closeCode := none }
        "f.cmake" "x").result = none ∧
    (runGersemi { workspaceFolders := [], existingFiles := [] }
        { events := [ChildEvent.stderrData "sig"], closeCode := none }
        "f.cmake" "x").notifications =
      ["gersemi failed: " ++
        stderrOf { events := [ChildEvent.stderrData "sig"], closeCode := none }] :=
  (runGersemi_result_iff_zero
    { workspaceFolders := [], existingFiles := [] }
    { events := [ChildEvent.stderrData "sig"], closeCode := none }
    "f.cmake" "x").2 (by decide)

/-- Claim C10: a zero exit with no stdout data resolves to the empty
string, not null, so the automatic provider returns one edit replacing the
whole document with empty text. -/
theorem runGersemi_empty_stdout (ws : Workspace) (beh : ChildBehavior)
    (document : TextDocument)
    (hout : stdoutOf beh = "") (hcode : beh.closeCode = some 0) :
    (runGersemi ws beh document.fileName document.text).result = some "" ∧
    provideDocumentFormattingEdits ws beh document =
      [{ rangeStart := 0, rangeEnd := document.text.length, newText := "" }] := by
  have hres : (runGersemi ws beh document.fileName document.text).result = some "" := by
    simp only [stdoutOf] at hout
    simp [runGersemi, BridgeOutcome.result, onClose, hcode, hout]
  exact ⟨hres, by simp [provideDocumentFormattingEdits, hres]⟩

/-- Witness for C10 at a silent successful behavior. -/
theorem runGersemi_empty_stdout_witness :
    stdoutOf { events := [ChildEvent.stderrData "warn"], closeCode := some 0 } = "" ∧
    (runGersemi { workspaceFolders := [], existingFiles := [] }
        { events := [ChildEvent.stderrData "warn"], closeCode := some 0 }
        "f.cmake" "abc").result = some "" ∧
    provideDocumentFormattingEdits { workspaceFolders := [], existingFiles := [] }
        { events := [ChildEvent.stderrData "warn"], closeCode := some 0 }
        { fileName := "f.cmake", text := "abc" } =
      [{ rangeStart := 0, rangeEnd := 3, newText := "" }] := by
  have h := runGersemi_empty_stdout
    { workspaceFolders := [], existingFiles := [] }
    { events := [ChildEvent.stderrData "warn"], closeCode := some 0 }
    { fileName := "f.cmake", text := "abc" } (by decide) rfl
  exact ⟨by decide, h.1, h.2⟩
